import Mathlib

/-!
Shallow embedding of the worldmonitor desktop-local API gateway:
`src/src-tauri/sidecar/local-api-server.mjs` (gateway server, dispatcher,
cloud proxy, handler registry) and the client runtime shim
(`isDesktopRuntime`, `getApiBaseUrl`, `getRemoteApiBaseUrl`, `toRuntimeUrl`,
`installRuntimeFetchPatch`).

Modelling conventions:
- JSON values produced by the `json` helper are kept structured (`JsonVal`)
  instead of serialized to text; `JSON.stringify` is a platform builtin, so a
  response body is either a structured JSON value built by `json` or an opaque
  string coming from a handler or the upstream.
- The Node request stream is a pair of the body bytes and a consumed flag:
  iterating a stream yields its bytes the first time and nothing afterwards,
  matching Node readable-stream semantics.
- Dynamic `import()` and `fetch` are oracles carried in the environment
  (`importModule`, `cloudFetch`); the cache-busting query token and the
  file-URL conversion are absorbed into the `importModule` oracle, which is
  keyed by the module path.
- JS truthiness on configuration strings (`if (configured)`) is: present and
  nonempty.
-/

/-- Boolean prefix test on character lists (kernel-reducible replacement for
`String.startsWith`). -/
def listIsPre : List Char → List Char → Bool
  | [], _ => true
  | _ :: _, [] => false
  | c :: p, d :: s => c = d && listIsPre p s

/-- `s.startsWith(p)`. -/
def strStartsWith (s p : String) : Bool := listIsPre p.data s.data

/-- `s.endsWith(p)`. -/
def strEndsWith (s p : String) : Bool := listIsPre p.data.reverse s.data.reverse

/-- Structured JSON values, as passed to the `json` response helper. -/
inductive JsonVal where
  | str (s : String)
  | num (n : Int)
  | bool (b : Bool)
  | obj (fields : List (String × JsonVal))
  | arr (elems : List JsonVal)

/-- A response body: either a JSON document built by the `json` helper
(`JSON.stringify data` in the source) or opaque bytes/text from a handler or
the upstream. -/
inductive BodyVal where
  | jsonBody (v : JsonVal)
  | raw (s : String)

/-- A web `Response`: status, headers and body. -/
structure Response where
  status : Nat
  headers : List (String × String)
  body : BodyVal

/-- `headersSet hs k v` models `Headers.set`: replace the value under `k`,
or add the entry when absent. -/
def headersSet (hs : List (String × String)) (k v : String) : List (String × String) :=
  if hs.any (fun kv => kv.1 = k) then
    hs.map (fun kv => if kv.1 = k then (k, v) else kv)
  else
    hs ++ [(k, v)]

/-- `json(data, status, extraHeaders)` from the source: a JSON response with
`content-type: application/json`, later spread entries overriding. -/
def json (data : JsonVal) (status : Nat) (extraHeaders : List (String × String)) : Response :=
  { status := status
    headers := extraHeaders.foldl (fun acc kv => headersSet acc kv.1 kv.2)
      [("content-type", "application/json")]
    body := BodyVal.jsonBody data }

/-- A Node readable stream carrying the inbound request body: it yields its
bytes on the first iteration and nothing once consumed. -/
structure ReqStream where
  bytes : List Nat
  consumed : Bool
deriving DecidableEq, Repr

/-- `readBody(req)`: collect the chunks of the stream; `undefined` (here
`none`) when no chunk arrived. Iterating ends the stream. -/
def readBody (s : ReqStream) : Option (List Nat) × ReqStream :=
  let chunks := if s.consumed then [] else s.bytes
  (if chunks.isEmpty then none else some chunks, { bytes := s.bytes, consumed := true })

/-- A Node request-header value: a single string or an array of strings. -/
inductive HdrVal where
  | str (s : String)
  | arr (vs : List String)

/-- `toHeaders(nodeHeaders)`: build a `Headers` object, `append`ing each
element of an array value and `set`ting a string value. -/
def toHeaders (nodeHeaders : List (String × HdrVal)) : List (String × String) :=
  nodeHeaders.foldl
    (fun acc kv =>
      match kv.2 with
      | HdrVal.arr vs => vs.foldl (fun a v => a ++ [(kv.1, v)]) acc
      | HdrVal.str v => headersSet acc kv.1 v)
    []

/-- The inbound Node request: method, raw headers and the body stream. -/
structure NodeReq where
  method : String
  headers : List (String × HdrVal)
  stream : ReqStream

/-- The parsed request URL (`new URL(req.url, base)`): path and query string. -/
structure ReqUrl where
  pathname : String
  search : String

/-- `requestUrl.toString()` for a loopback server on `port`. -/
def urlToString (port : Nat) (u : ReqUrl) : String :=
  "http://127.0.0.1:" ++ toString port ++ u.pathname ++ u.search

/-- First `replace(/^\/api\//, '')`: drop a leading reserved prefix. -/
def stripApi (p : String) : String :=
  if strStartsWith p "/api/" then p.drop 5 else p

/-- Second `replace(/\/$/, '')`: drop one trailing slash. -/
def stripTrailingSlash (s : String) : String :=
  if strEndsWith s "/" then s.dropRight 1 else s

/-- `endpointFromPath(pathname)` from the source: strip the reserved prefix,
strip a trailing slash, and fall back to `'index'` when empty (JS `||`). -/
def endpointFromPath (pathname : String) : String :=
  let stripped := stripTrailingSlash (stripApi pathname)
  if stripped = "" then "index" else stripped

/-- Spec-side normalization: the reserved prefix and a trailing slash
stripped. Modelled from the spec: "derived deterministically from
InboundRequest.path by stripping the reserved prefix and trailing slash". -/
def normalizedPath (p : String) : String :=
  stripTrailingSlash (stripApi p)

/-- `path.join(apiDir, file)`, for the abstract directory names used here. -/
def pathJoin (a b : String) : String := a ++ "/" ++ b

/-- The normalized web `Request` handed to a local handler. -/
structure WebRequest where
  url : String
  method : String
  headers : List (String × String)
  body : Option (List Nat)

/-- The default export of a dynamically imported handler module: either not a
function (`typeof mod.default !== 'function'`) or a callable handler taking
the normalized web request. A handler may throw (`Except.error`). -/
inductive ModDefault where
  | notCallable
  | callable (h : WebRequest → Except String Response)

/-- A loaded handler module (only its default export matters). -/
structure HandlerModule where
  dflt : ModDefault

/-- The arguments of an upstream `fetch` call made by the cloud proxy. -/
structure FetchCall where
  url : String
  method : String
  headers : List (String × String)
  body : Option (List Nat)

/-- Process-wide runtime configuration and the effect oracles of the gateway
process: filesystem existence, dynamic import, upstream fetch, and the clock
reading used by the service-status endpoint. -/
structure Env where
  port : Nat
  remoteBase : String
  apiDir : String
  mode : String
  now : String
  handlerExists : String → Bool
  importModule : String → Except String HandlerModule
  cloudFetch : FetchCall → Except String Response

/-- The body selection both `proxyToCloud` and `dispatch` perform:
`['GET', 'HEAD'].includes(req.method) ? undefined : await readBody(req)`. -/
def bodyForMethod (method : String) (s : ReqStream) : Option (List Nat) × ReqStream :=
  if method = "GET" ∨ method = "HEAD" then (none, s) else readBody s

/-- The `fetch` call `proxyToCloud` constructs: target URL is
`remoteBase + pathname + search`; no body for GET/HEAD, otherwise the bytes
`readBody` yields. Returns the call and the stream state after reading. -/
def proxyCall (env : Env) (requestUrl : ReqUrl) (req : NodeReq) : FetchCall × ReqStream :=
  let target := env.remoteBase ++ requestUrl.pathname ++ requestUrl.search
  let rb := bodyForMethod req.method req.stream
  ({ url := target, method := req.method, headers := toHeaders req.headers, body := rb.1 }, rb.2)

/-- `proxyToCloud(requestUrl, req)`: perform the upstream fetch and return its
response unchanged; a network error propagates (`Except.error`). -/
def proxyToCloud (env : Env) (requestUrl : ReqUrl) (req : NodeReq) :
    Except String Response × ReqStream :=
  let pc := proxyCall env requestUrl req
  (env.cloudFetch pc.1, pc.2)

/-- `handleServiceStatus()`: the static capability summary. -/
def handleServiceStatus (env : Env) : Response :=
  json (JsonVal.obj
    [ ("success", JsonVal.bool true)
    , ("timestamp", JsonVal.str env.now)
    , ("summary", JsonVal.obj
        [ ("operational", JsonVal.num 2), ("degraded", JsonVal.num 0)
        , ("outage", JsonVal.num 0), ("unknown", JsonVal.num 0) ])
    , ("services", JsonVal.arr
        [ JsonVal.obj
            [ ("id", JsonVal.str "local-api")
            , ("name", JsonVal.str "Local Desktop API")
            , ("category", JsonVal.str "dev")
            , ("status", JsonVal.str "operational")
            , ("description", JsonVal.str ("Running on 127.0.0.1:" ++ toString env.port)) ]
        , JsonVal.obj
            [ ("id", JsonVal.str "cloud-pass-through")
            , ("name", JsonVal.str "Cloud pass-through")
            , ("category", JsonVal.str "cloud")
            , ("status", JsonVal.str "operational")
            , ("description", JsonVal.str ("Fallback target " ++ env.remoteBase)) ] ])
    , ("local", JsonVal.obj
        [ ("enabled", JsonVal.bool true), ("mode", JsonVal.str env.mode)
        , ("port", JsonVal.num env.port), ("remoteBase", JsonVal.str env.remoteBase) ]) ])
    200 []

/-- The `new Request(requestUrl.toString(), { method, headers, body })` value
`dispatch` hands to a loaded local handler. -/
def dispatchRequest (env : Env) (requestUrl : ReqUrl) (req : NodeReq) : WebRequest :=
  { url := urlToString env.port requestUrl, method := req.method
  , headers := toHeaders req.headers
  , body := (bodyForMethod req.method req.stream).1 }

/-- The catch-block of `dispatch`: try the cloud fallback; if it too fails,
answer the fixed 502 body. `s` is the stream state at the time of the catch. -/
def dispatchFallback (env : Env) (requestUrl : ReqUrl) (req : NodeReq) (s : ReqStream) :
    Except String Response × ReqStream :=
  let pr := proxyToCloud env requestUrl { req with stream := s }
  match pr.1 with
  | Except.ok r => (Except.ok r, pr.2)
  | Except.error _ =>
      (Except.ok (json (JsonVal.obj
        [("error", JsonVal.str "Local handler failed and cloud fallback unavailable")]) 502 []),
       pr.2)

/-- `dispatch(requestUrl, req)` from the source, with the stream threaded
explicitly. Errors escaping `dispatch` (the unguarded NotFound-path proxy)
are `Except.error`. -/
def dispatch (env : Env) (requestUrl : ReqUrl) (req : NodeReq) :
    Except String Response × ReqStream :=
  if requestUrl.pathname = "/api/service-status" then
    (Except.ok (handleServiceStatus env), req.stream)
  else if requestUrl.pathname = "/api/local-status" then
    (Except.ok (json (JsonVal.obj
      [ ("success", JsonVal.bool true), ("mode", JsonVal.str env.mode)
      , ("port", JsonVal.num env.port), ("apiDir", JsonVal.str env.apiDir)
      , ("remoteBase", JsonVal.str env.remoteBase) ]) 200 []), req.stream)
  else
    let endpoint := endpointFromPath requestUrl.pathname
    let modulePath := pathJoin env.apiDir (endpoint ++ ".js")
    if env.handlerExists modulePath = false then
      proxyToCloud env requestUrl req
    else
      match env.importModule modulePath with
      | Except.error _ => dispatchFallback env requestUrl req req.stream
      | Except.ok m =>
        match m.dflt with
        | ModDefault.notCallable =>
            (Except.ok (json (JsonVal.obj
              [("error", JsonVal.str ("Invalid handler for " ++ endpoint))]) 500 []),
             req.stream)
        | ModDefault.callable h =>
            let rb := bodyForMethod req.method req.stream
            match h (dispatchRequest env requestUrl req) with
            | Except.ok resp => (Except.ok resp, rb.2)
            | Except.error _ => dispatchFallback env requestUrl req rb.2

/-- What the gateway server writes back for one request. -/
structure ServerOut where
  status : Nat
  headers : List (String × String)
  body : BodyVal

/-- The `createServer` callback, parametrized by the dispatch function it
invokes: reject non-`/api/` paths with 404 before dispatching, otherwise
write the dispatch response, converting an escaped error to a fixed 500. -/
def serverCallbackWith
    (dispatchFn : ReqUrl → NodeReq → Except String Response × ReqStream)
    (requestUrl : ReqUrl) (req : NodeReq) : ServerOut :=
  if strStartsWith requestUrl.pathname "/api/" = false then
    { status := 404, headers := [("content-type", "application/json")]
    , body := BodyVal.jsonBody (JsonVal.obj [("error", JsonVal.str "Not found")]) }
  else
    match (dispatchFn requestUrl req).1 with
    | Except.ok response =>
        { status := response.status, headers := response.headers, body := response.body }
    | Except.error _ =>
        { status := 500, headers := [("content-type", "application/json")]
        , body := BodyVal.jsonBody (JsonVal.obj [("error", JsonVal.str "Internal server error")]) }

/-- The server callback with the real dispatcher plugged in. -/
def serverCallback (env : Env) (requestUrl : ReqUrl) (req : NodeReq) : ServerOut :=
  serverCallbackWith (dispatch env) requestUrl req

/-! ## Client runtime shim -/

/-- `DEFAULT_REMOTE_HOSTS` lookup table. -/
def DEFAULT_REMOTE_HOSTS : String → Option String
  | "tech" => some "https://tech.worldmonitor.app"
  | "full" => some "https://worldmonitor.app"
  | "world" => some "https://worldmonitor.app"
  | _ => none

/-- `DEFAULT_LOCAL_API_BASE`. -/
def DEFAULT_LOCAL_API_BASE : String := "http://127.0.0.1:46123"

/-- `normalizeBaseUrl(baseUrl)`: strip one trailing slash. -/
def normalizeBaseUrl (baseUrl : String) : String :=
  if strEndsWith baseUrl "/" then baseUrl.dropRight 1 else baseUrl

/-- JS truthiness of an optional configuration string: present and nonempty. -/
def truthy : Option String → Bool
  | none => false
  | some s => s ≠ ""

/-- The client execution context: whether a `window` global exists, which
Tauri markers it carries, and the Vite build-time configuration values. -/
structure ClientEnv where
  hasWindow : Bool
  tauriInternals : Bool
  tauriGlobal : Bool
  viteTauriApiBaseUrl : Option String
  viteTauriRemoteApiBaseUrl : Option String
  viteVariant : Option String

/-- `isDesktopRuntime()`: a `window` exists and carries
`__TAURI_INTERNALS__` or `__TAURI__`. -/
def isDesktopRuntime (env : ClientEnv) : Bool :=
  if env.hasWindow = false then false
  else env.tauriInternals || env.tauriGlobal

/-- `getApiBaseUrl()` from the source. -/
def getApiBaseUrl (env : ClientEnv) : String :=
  if isDesktopRuntime env = false then ""
  else if truthy env.viteTauriApiBaseUrl then
    normalizeBaseUrl (env.viteTauriApiBaseUrl.getD "")
  else DEFAULT_LOCAL_API_BASE

/-- `getRemoteApiBaseUrl()` from the source. -/
def getRemoteApiBaseUrl (env : ClientEnv) : String :=
  if truthy env.viteTauriRemoteApiBaseUrl then
    normalizeBaseUrl (env.viteTauriRemoteApiBaseUrl.getD "")
  else
    let variant := if truthy env.viteVariant then env.viteVariant.getD "" else "world"
    match DEFAULT_REMOTE_HOSTS variant with
    | some host => host
    | none =>
      match DEFAULT_REMOTE_HOSTS "world" with
      | some host => host
      | none => "https://worldmonitor.app"

/-- `toRuntimeUrl(path)` from the source. -/
def toRuntimeUrl (env : ClientEnv) (path : String) : String :=
  if strStartsWith path "/" = false then path
  else
    let baseUrl := getApiBaseUrl env
    if baseUrl = "" then path
    else baseUrl ++ path

/-- The global `fetch` binding: either the native one or the patched closure
installed by `installRuntimeFetchPatch`, which captures the native fetch and
the two base URLs. -/
inductive FetchFn where
  | native
  | patched (localBase remoteBase : String) (orig : FetchFn)
deriving DecidableEq, Repr

/-- The mutable window state touched by the patch: the `fetch` binding and
the `__wmFetchPatched` marker flag. -/
structure WindowSt where
  fetch : FetchFn
  wmFetchPatched : Bool
deriving DecidableEq, Repr

/-- `installRuntimeFetchPatch()` from the source: return unchanged unless in
the desktop runtime with a window whose marker flag is unset; otherwise wrap
`fetch` and set the flag. -/
def installRuntimeFetchPatch (env : ClientEnv) (w : WindowSt) : WindowSt :=
  if isDesktopRuntime env = false || env.hasWindow = false || w.wmFetchPatched then w
  else
    { fetch := FetchFn.patched (getApiBaseUrl env) (getRemoteApiBaseUrl env) w.fetch
    , wmFetchPatched := true }

/-! ## Specification helpers and concrete fixtures -/

/-- An upstream oracle that records in its response body whether the fetch
call carried a body; used to observe what the cloud proxy sends. -/
def spyFetch : FetchCall → Except String Response :=
  fun c => Except.ok
    { status := 200, headers := []
    , body := BodyVal.raw (match c.body with
        | none => "no-body"
        | some bs => "body:" ++ toString bs) }

/-- A fixed successful upstream response. -/
def cloudResponseOk : Response :=
  { status := 200, headers := [("x-cloud", "1")], body := BodyVal.raw "cloud" }

/-- Gateway environment where the handler file exists, its default export is
not callable, and the cloud upstream would answer successfully. -/
def envInvalidHandler : Env :=
  { port := 46123, remoteBase := "https://worldmonitor.app", apiDir := "/res/api"
  , mode := "desktop-sidecar", now := "2026-01-01T00:00:00.000Z"
  , handlerExists := fun _ => true
  , importModule := fun _ => Except.ok { dflt := ModDefault.notCallable }
  , cloudFetch := fun _ => Except.ok cloudResponseOk }

/-- Gateway environment where the handler import throws and the cloud
upstream is unreachable. -/
def envBothFail : Env :=
  { port := 46123, remoteBase := "https://worldmonitor.app", apiDir := "/res/api"
  , mode := "desktop-sidecar", now := "2026-01-01T00:00:00.000Z"
  , handlerExists := fun _ => true
  , importModule := fun _ => Except.error "SyntaxError"
  , cloudFetch := fun _ => Except.error "ECONNREFUSED" }

/-- Gateway environment where the handler loads but throws when invoked, and
the upstream is the spy oracle. -/
def envThrowingHandler : Env :=
  { port := 46123, remoteBase := "https://worldmonitor.app", apiDir := "/res/api"
  , mode := "desktop-sidecar", now := "2026-01-01T00:00:00.000Z"
  , handlerExists := fun _ => true
  , importModule := fun _ =>
      Except.ok { dflt := ModDefault.callable (fun _ => Except.error "boom") }
  , cloudFetch := spyFetch }

/-- Gateway environment with no local handler file and an unreachable cloud. -/
def envNoHandlerCloudDown : Env :=
  { port := 46123, remoteBase := "https://worldmonitor.app", apiDir := "/res/api"
  , mode := "desktop-sidecar", now := "2026-01-01T00:00:00.000Z"
  , handlerExists := fun _ => false
  , importModule := fun _ => Except.error "unreachable"
  , cloudFetch := fun _ => Except.error "ECONNREFUSED" }

/-- A GET request for `/api/widget` with an empty inbound stream. -/
def urlWidget : ReqUrl := { pathname := "/api/widget", search := "" }

/-- A request URL outside the reserved prefix. -/
def urlHealth : ReqUrl := { pathname := "/health", search := "" }

/-- A bare GET request. -/
def getReq : NodeReq :=
  { method := "GET", headers := [], stream := { bytes := [], consumed := false } }

/-- A POST request carrying the body bytes `[1, 2, 3]`, stream unconsumed. -/
def postReq : NodeReq :=
  { method := "POST", headers := [], stream := { bytes := [1, 2, 3], consumed := false } }

/-- Client context with no `window` at all but with a configured override. -/
def envOutside : ClientEnv :=
  { hasWindow := false, tauriInternals := false, tauriGlobal := false
  , viteTauriApiBaseUrl := some "https://cfg.example/"
  , viteTauriRemoteApiBaseUrl := none, viteVariant := none }

/-- Desktop-runtime client context with no configured overrides. -/
def envDesktopDefault : ClientEnv :=
  { hasWindow := true, tauriInternals := true, tauriGlobal := false
  , viteTauriApiBaseUrl := none
  , viteTauriRemoteApiBaseUrl := none, viteVariant := none }

/-- Desktop-runtime client context with a configured base-URL override that
carries a trailing slash. -/
def envDesktopCfg : ClientEnv :=
  { hasWindow := true, tauriInternals := false, tauriGlobal := true
  , viteTauriApiBaseUrl := some "http://localhost:9000/"
  , viteTauriRemoteApiBaseUrl := none, viteVariant := none }

/-! ## Theorems -/

/-- `endpointFromPath` factors through the spec's normalization. -/
theorem endpointFromPath_eq (p : String) :
    endpointFromPath p = if normalizedPath p = "" then "index" else normalizedPath p := rfl

/-- C5: `endpointFromPath` is a pure total function on path strings: it
strips the reserved prefix `/api/` and a trailing slash (the spec-side
`normalizedPath`), maps an empty normalized path to the sentinel `"index"`,
and otherwise returns the normalized path itself, so each distinct
normalized path determines exactly one endpoint name. -/
theorem endpointFromPath_pure_total :
    (∀ p q : String, normalizedPath p = normalizedPath q →
        endpointFromPath p = endpointFromPath q) ∧
    (∀ p : String, normalizedPath p = "" → endpointFromPath p = "index") ∧
    (∀ p : String, normalizedPath p ≠ "" → endpointFromPath p = normalizedPath p) := by
  refine ⟨fun p q h => ?_, fun p h => ?_, fun p h => ?_⟩
  · rw [endpointFromPath_eq, endpointFromPath_eq, h]
  · rw [endpointFromPath_eq, if_pos h]
  · rw [endpointFromPath_eq, if_neg h]

/-- Witness for C5 at concrete paths. -/
theorem endpointFromPath_pure_total_witness :
    endpointFromPath "/api/weather/" = endpointFromPath "/api/weather" ∧
    endpointFromPath "/api/" = "index" ∧
    endpointFromPath "/api/weather" = "weather" :=
  ⟨endpointFromPath_pure_total.1 "/api/weather/" "/api/weather" rfl,
   endpointFromPath_pure_total.2.1 "/api/" rfl,
   (endpointFromPath_pure_total.2.2 "/api/weather" (by decide)).trans (by decide)⟩

/-- C7: outside the desktop runtime `getApiBaseUrl` is the empty string no
matter what override is configured; inside it, a configured nonempty
override is returned with one trailing slash stripped, and otherwise the
fixed local default base is returned. -/
theorem getApiBaseUrl_spec (env : ClientEnv) :
    (isDesktopRuntime env = false → getApiBaseUrl env = "") ∧
    (isDesktopRuntime env = true →
      (∀ s : String, env.viteTauriApiBaseUrl = some s → s ≠ "" →
          getApiBaseUrl env = normalizeBaseUrl s) ∧
      (truthy env.viteTauriApiBaseUrl = false →
          getApiBaseUrl env = DEFAULT_LOCAL_API_BASE)) := by
  constructor
  · intro h
    simp [getApiBaseUrl, h]
  · intro h
    constructor
    · intro s hs hne
      simp [getApiBaseUrl, h, hs, truthy, hne]
    · intro ht
      simp [getApiBaseUrl, h, ht]

/-- Witness for C7: no-window context with an override still yields `""`;
desktop contexts yield the normalized override or the default base. -/
theorem getApiBaseUrl_spec_witness :
    getApiBaseUrl envOutside = "" ∧
    getApiBaseUrl envDesktopCfg = normalizeBaseUrl "http://localhost:9000/" ∧
    getApiBaseUrl envDesktopDefault = DEFAULT_LOCAL_API_BASE :=
  ⟨(getApiBaseUrl_spec envOutside).1 rfl,
   ((getApiBaseUrl_spec envDesktopCfg).2 rfl).1 "http://localhost:9000/" rfl (by decide),
   ((getApiBaseUrl_spec envDesktopDefault).2 rfl).2 rfl⟩

/-- Auxiliary: prepending the empty string is the identity. -/
theorem empty_append_str (s : String) : "" ++ s = s := rfl

/-- C8: `toRuntimeUrl` is the identity on paths not starting with `/`; on
absolute paths it prepends `getApiBaseUrl()` in the desktop runtime and is
the identity otherwise; concretely, `/api/x` with the default local base
becomes `http://127.0.0.1:46123/api/x`. -/
theorem toRuntimeUrl_spec :
    (∀ (env : ClientEnv) (path : String),
      toRuntimeUrl env path =
        if strStartsWith path "/" = false then path
        else if isDesktopRuntime env = true then getApiBaseUrl env ++ path
        else path) ∧
    toRuntimeUrl envDesktopDefault "/api/x" = "http://127.0.0.1:46123/api/x" := by
  constructor
  · intro env path
    by_cases hp : strStartsWith path "/" = false
    · simp [toRuntimeUrl, hp]
    · by_cases hd : isDesktopRuntime env = true
      · by_cases hb : getApiBaseUrl env = ""
        · simp [toRuntimeUrl, hp, hd, hb, empty_append_str]
        · simp [toRuntimeUrl, hp, hd, hb]
      · have hb : getApiBaseUrl env = "" := by
          simp [getApiBaseUrl, Bool.not_eq_true _ ▸ hd]
        simp [toRuntimeUrl, hp, hd, hb]
  · rfl

/-- `installRuntimeFetchPatch` is the identity on a window whose marker flag
is already set. -/
theorem install_noop_of_flag (env : ClientEnv) (w : WindowSt)
    (h : w.wmFetchPatched = true) : installRuntimeFetchPatch env w = w := by
  simp [installRuntimeFetchPatch, h]

/-- C9: `installRuntimeFetchPatch` is idempotent — a second call is a no-op
thanks to the marker flag — and is a no-op in any context outside the
desktop runtime. -/
theorem installRuntimeFetchPatch_idem :
    (∀ (env : ClientEnv) (w : WindowSt),
        installRuntimeFetchPatch env (installRuntimeFetchPatch env w) =
          installRuntimeFetchPatch env w) ∧
    (∀ (env : ClientEnv) (w : WindowSt), isDesktopRuntime env = false →
        installRuntimeFetchPatch env w = w) ∧
    (∀ (env : ClientEnv) (w : WindowSt), w.wmFetchPatched = true →
        installRuntimeFetchPatch env w = w) := by
  refine ⟨fun env w => ?_, fun env w h => ?_, fun env w h => install_noop_of_flag env w h⟩
  · by_cases hg :
      (isDesktopRuntime env = false || env.hasWindow = false || w.wmFetchPatched) = true
    · have h1 : installRuntimeFetchPatch env w = w := by
        rw [installRuntimeFetchPatch, if_pos hg]
      rw [h1, h1]
    · have h1 : installRuntimeFetchPatch env w =
          { fetch := FetchFn.patched (getApiBaseUrl env) (getRemoteApiBaseUrl env) w.fetch
          , wmFetchPatched := true } := by
        rw [installRuntimeFetchPatch, if_neg hg]
      rw [h1, install_noop_of_flag env _ rfl]
  · simp [installRuntimeFetchPatch, h]

/-- Witness for C9: double installation on a fresh window equals single
installation; no-window context and already-set flag are no-ops. -/
theorem installRuntimeFetchPatch_idem_witness :
    installRuntimeFetchPatch envDesktopDefault
        (installRuntimeFetchPatch envDesktopDefault
          { fetch := FetchFn.native, wmFetchPatched := false }) =
      installRuntimeFetchPatch envDesktopDefault
        { fetch := FetchFn.native, wmFetchPatched := false } ∧
    installRuntimeFetchPatch envOutside
        { fetch := FetchFn.native, wmFetchPatched := false } =
      { fetch := FetchFn.native, wmFetchPatched := false } ∧
    installRuntimeFetchPatch envDesktopDefault
        { fetch := FetchFn.native, wmFetchPatched := true } =
      { fetch := FetchFn.native, wmFetchPatched := true } :=
  ⟨installRuntimeFetchPatch_idem.1 envDesktopDefault _,
   installRuntimeFetchPatch_idem.2.1 envOutside _ rfl,
   installRuntimeFetchPatch_idem.2.2 envDesktopDefault _ rfl⟩

/-- C4: every request whose path does not start with `/api/` is answered
404 with the JSON `Not found` error body, for every possible dispatch
function — so the Dispatcher is not invoked. -/
theorem server_rejects_non_api
    (dispatchFn : ReqUrl → NodeReq → Except String Response × ReqStream)
    (requestUrl : ReqUrl) (req : NodeReq)
    (h : strStartsWith requestUrl.pathname "/api/" = false) :
    serverCallbackWith dispatchFn requestUrl req =
      { status := 404, headers := [("content-type", "application/json")]
      , body := BodyVal.jsonBody (JsonVal.obj [("error", JsonVal.str "Not found")]) } := by
  rw [serverCallbackWith, if_pos h]

/-- Witness for C4 at a concrete non-API path, with the real dispatcher of a
concrete environment plugged in. -/
theorem server_rejects_non_api_witness :
    serverCallbackWith (dispatch envInvalidHandler) urlHealth getReq =
      { status := 404, headers := [("content-type", "application/json")]
      , body := BodyVal.jsonBody (JsonVal.obj [("error", JsonVal.str "Not found")]) } :=
  server_rejects_non_api (dispatch envInvalidHandler) urlHealth getReq (by decide)

/-- C6: the upstream URL the Cloud Proxy fetches is exactly
`remoteBase ++ pathname ++ search`, and the proxy returns the upstream
result unchanged — whatever its status — without inspecting it. -/
theorem proxyToCloud_transparent (env : Env) (u : ReqUrl) (req : NodeReq) :
    (proxyCall env u req).1.url = env.remoteBase ++ u.pathname ++ u.search ∧
    (proxyToCloud env u req).1 = env.cloudFetch (proxyCall env u req).1 :=
  ⟨rfl, rfl⟩

/-- C2: if the local attempt throws — the import fails, or it yields a
callable handler that throws on the request `dispatch` builds — and the
cloud fetch the catch-block fallback then makes also fails, `dispatch`
returns the fixed
`{"error": "Local handler failed and cloud fallback unavailable"}` JSON body
with status 502. (In the import-failure case the fallback re-reads the
still-unconsumed stream; in the invocation-failure case it reads the
already-consumed one.) -/
theorem dispatch_terminal_502 (env : Env) (u : ReqUrl) (req : NodeReq)
    (hp1 : u.pathname ≠ "/api/service-status")
    (hp2 : u.pathname ≠ "/api/local-status")
    (hex : env.handlerExists (pathJoin env.apiDir (endpointFromPath u.pathname ++ ".js")) = true) :
    ((∃ e, env.importModule (pathJoin env.apiDir (endpointFromPath u.pathname ++ ".js")) =
        Except.error e) →
      (∃ e, env.cloudFetch (proxyCall env u req).1 = Except.error e) →
      (dispatch env u req).1 =
        Except.ok (json (JsonVal.obj
          [("error", JsonVal.str "Local handler failed and cloud fallback unavailable")]) 502 [])) ∧
    (∀ hnd : WebRequest → Except String Response,
      env.importModule (pathJoin env.apiDir (endpointFromPath u.pathname ++ ".js")) =
        Except.ok { dflt := ModDefault.callable hnd } →
      (∃ e, hnd (dispatchRequest env u req) = Except.error e) →
      (∃ e, env.cloudFetch (proxyCall env u
          { req with stream := (bodyForMethod req.method req.stream).2 }).1 = Except.error e) →
      (dispatch env u req).1 =
        Except.ok (json (JsonVal.obj
          [("error", JsonVal.str "Local handler failed and cloud fallback unavailable")]) 502 [])) := by
  constructor
  · rintro ⟨e, he⟩ ⟨e2, hc⟩
    simp [dispatch, hp1, hp2, hex, he, dispatchFallback, proxyToCloud, hc]
  · rintro hnd hok ⟨e, herr⟩ ⟨e2, hc⟩
    simp [dispatch, hp1, hp2, hex, hok, herr, dispatchFallback, proxyToCloud, hc]

/-- Witness for C2: import throws, cloud unreachable, result is the 502 body. -/
theorem dispatch_terminal_502_witness :
    (dispatch envBothFail urlWidget getReq).1 =
      Except.ok (json (JsonVal.obj
        [("error", JsonVal.str "Local handler failed and cloud fallback unavailable")]) 502 []) :=
  (dispatch_terminal_502 envBothFail urlWidget getReq (by decide) (by decide) rfl).1
    ⟨"SyntaxError", rfl⟩ ⟨"ECONNREFUSED", rfl⟩

/-- C10: when no local handler file exists, the cloud forward runs outside
any try/catch in `dispatch`, so a network-level failure propagates out of
`dispatch`, and the server callback converts it into the generic 500
`{"error": "Internal server error"}` response (not the 502 fallback body,
which only the handler-failure path produces). -/
theorem dispatch_notfound_propagates (env : Env) (u : ReqUrl) (req : NodeReq) (e : String)
    (hp0 : strStartsWith u.pathname "/api/" = true)
    (hp1 : u.pathname ≠ "/api/service-status")
    (hp2 : u.pathname ≠ "/api/local-status")
    (hex : env.handlerExists (pathJoin env.apiDir (endpointFromPath u.pathname ++ ".js")) = false)
    (hfail : env.cloudFetch (proxyCall env u req).1 = Except.error e) :
    (dispatch env u req).1 = Except.error e ∧
    serverCallback env u req =
      { status := 500, headers := [("content-type", "application/json")]
      , body := BodyVal.jsonBody (JsonVal.obj [("error", JsonVal.str "Internal server error")]) } := by
  have hd : (dispatch env u req).1 = Except.error e := by
    simp [dispatch, hp1, hp2, hex, proxyToCloud, hfail]
  refine ⟨hd, ?_⟩
  simp [serverCallback, serverCallbackWith, hp0, hd]

/-- Witness for C10: missing handler plus unreachable cloud yields the
propagated error and the server's 500 body. -/
theorem dispatch_notfound_propagates_witness :
    (dispatch envNoHandlerCloudDown urlWidget getReq).1 = Except.error "ECONNREFUSED" ∧
    serverCallback envNoHandlerCloudDown urlWidget getReq =
      { status := 500, headers := [("content-type", "application/json")]
      , body := BodyVal.jsonBody (JsonVal.obj [("error", JsonVal.str "Internal server error")]) } :=
  dispatch_notfound_propagates envNoHandlerCloudDown urlWidget getReq "ECONNREFUSED"
    (by decide) (by decide) (by decide) rfl rfl

/-- C1 counterexample: the endpoint resolves to an existing handler file
whose default export is not callable and the cloud upstream would answer
successfully, yet `dispatch` returns the direct 500 `Invalid handler`
error body — a user-visible error — and not the cloud response. -/
theorem dispatch_invalid_handler_counterexample :
    (dispatch envInvalidHandler urlWidget getReq).1 =
      Except.ok (json (JsonVal.obj
        [("error", JsonVal.str "Invalid handler for widget")]) 500 []) ∧
    envInvalidHandler.cloudFetch (proxyCall envInvalidHandler urlWidget getReq).1 =
      Except.ok cloudResponseOk ∧
    (dispatch envInvalidHandler urlWidget getReq).1 ≠ Except.ok cloudResponseOk := by
  have hstat : (dispatch envInvalidHandler urlWidget getReq).1.map Response.status =
      Except.ok 500 := rfl
  refine ⟨rfl, rfl, fun h => ?_⟩
  rw [h] at hstat
  simp [cloudResponseOk, Except.map] at hstat

/-- C1 amended: a resolved handler module whose default export is not
callable makes `dispatch` return the 500 `Invalid handler for <endpoint>`
JSON body directly, with the same result under every cloud oracle — the
Cloud Proxy is not consulted; the fallback covers only a throwing import or
invocation. -/
theorem dispatch_invalid_handler_500 (env : Env) (u : ReqUrl) (req : NodeReq)
    (hp1 : u.pathname ≠ "/api/service-status")
    (hp2 : u.pathname ≠ "/api/local-status")
    (hex : env.handlerExists (pathJoin env.apiDir (endpointFromPath u.pathname ++ ".js")) = true)
    (himp : env.importModule (pathJoin env.apiDir (endpointFromPath u.pathname ++ ".js")) =
      Except.ok { dflt := ModDefault.notCallable }) :
    ∀ cf : FetchCall → Except String Response,
      (dispatch { env with cloudFetch := cf } u req).1 =
        Except.ok (json (JsonVal.obj
          [("error", JsonVal.str ("Invalid handler for " ++ endpointFromPath u.pathname))]) 500 []) := by
  intro cf
  simp [dispatch, hp1, hp2, hex, himp]

/-- Witness for the amended C1 at a concrete environment and request. -/
theorem dispatch_invalid_handler_500_witness :
    (dispatch { envInvalidHandler with cloudFetch := spyFetch } urlWidget getReq).1 =
      Except.ok (json (JsonVal.obj
        [("error", JsonVal.str ("Invalid handler for " ++ endpointFromPath "/api/widget"))]) 500 []) :=
  dispatch_invalid_handler_500 envInvalidHandler urlWidget getReq
    (by decide) (by decide) rfl rfl spyFetch

/-- C3 counterexample: a POST request with body bytes `[1, 2, 3]` whose
local handler throws after the inbound stream was read; the spy upstream
records that the cloud-fallback forward carried no body at all, refuting
"the original request body bytes are sent unchanged" on that path. -/
theorem proxyBody_counterexample :
    postReq.method = "POST" ∧ postReq.stream.bytes = [1, 2, 3] ∧
    (dispatch envThrowingHandler urlWidget postReq).1 =
      Except.ok { status := 200, headers := [], body := BodyVal.raw "no-body" } :=
  ⟨rfl, rfl, rfl⟩

/-- C3 amended: the Cloud Proxy sends no body for GET/HEAD and forwards the
original body bytes for other methods whenever the inbound stream is still
unconsumed (the NotFound forward and the failing-import fallback); but once
the stream has been consumed — in particular in the fallback performed after
a handler invocation failure on a non-GET/HEAD request — the re-read yields
nothing and no body is sent upstream. -/
theorem proxyBody_spec :
    (∀ (env : Env) (u : ReqUrl) (req : NodeReq),
        (req.method = "GET" ∨ req.method = "HEAD") →
        (proxyCall env u req).1.body = none) ∧
    (∀ (env : Env) (u : ReqUrl) (req : NodeReq),
        ¬(req.method = "GET" ∨ req.method = "HEAD") →
        req.stream.consumed = false → req.stream.bytes ≠ [] →
        (proxyCall env u req).1.body = some req.stream.bytes) ∧
    (∀ (env : Env) (u : ReqUrl) (req : NodeReq),
        ¬(req.method = "GET" ∨ req.method = "HEAD") →
        req.stream.consumed = true →
        (proxyCall env u req).1.body = none) ∧
    (∀ (env : Env) (u : ReqUrl) (req : NodeReq)
        (hnd : WebRequest → Except String Response) (e : String),
        u.pathname ≠ "/api/service-status" → u.pathname ≠ "/api/local-status" →
        env.handlerExists (pathJoin env.apiDir (endpointFromPath u.pathname ++ ".js")) = true →
        env.importModule (pathJoin env.apiDir (endpointFromPath u.pathname ++ ".js")) =
          Except.ok { dflt := ModDefault.callable hnd } →
        hnd (dispatchRequest env u req) = Except.error e →
        ¬(req.method = "GET" ∨ req.method = "HEAD") →
        env.cloudFetch = spyFetch →
        (dispatch env u req).1 =
          Except.ok { status := 200, headers := [], body := BodyVal.raw "no-body" }) := by
  refine ⟨?_, ?_, ?_, ?_⟩
  · intro env u req hm
    simp [proxyCall, bodyForMethod, hm]
  · intro env u req hm hc hb
    simp [proxyCall, bodyForMethod, hm, readBody, hc, hb]
  · intro env u req hm hc
    simp [proxyCall, bodyForMethod, hm, readBody, hc]
  · intro env u req hnd e hp1 hp2 hex himp herr hm hspy
    simp [dispatch, hp1, hp2, hex, himp, herr, bodyForMethod, hm, dispatchFallback,
      proxyToCloud, proxyCall, readBody, hspy, spyFetch]

/-- Witness for the amended C3: GET sends no body; an unconsumed POST
forwards `[1, 2, 3]`; the post-invocation fallback sends no body. -/
theorem proxyBody_spec_witness :
    (proxyCall envNoHandlerCloudDown urlWidget getReq).1.body = none ∧
    (proxyCall envNoHandlerCloudDown urlWidget postReq).1.body = some [1, 2, 3] ∧
    (dispatch envThrowingHandler urlWidget postReq).1 =
      Except.ok { status := 200, headers := [], body := BodyVal.raw "no-body" } :=
  ⟨proxyBody_spec.1 envNoHandlerCloudDown urlWidget getReq (Or.inl rfl),
   proxyBody_spec.2.1 envNoHandlerCloudDown urlWidget postReq (by decide) rfl (by decide),
   proxyBody_spec.2.2.2 envThrowingHandler urlWidget postReq
     (fun _ => Except.error "boom") "boom" (by decide) (by decide) rfl rfl rfl
     (by decide) rfl⟩
